import Mathlib

/-!
Shallow embedding of the parranda-crawler service (`src/app.py`).

The program is a small HTTP service with three endpoints:
  - `/`       : reports configuration, in particular whether email credentials
                are set (`email_configured`);
  - `/check`  : queries a catalog API for one named product, compares the
                stock flag with the last persisted status, optionally sends an
                email notification, and persists the new status;
  - `/status` : returns the last persisted status.

External effects are modelled by explicit oracles in `Env`:
  - `catalogResponse` is the parsed body of the products API call
    (`none` models a network or parse failure of `requests.post`);
  - `readOk` / `writeOk` model whether the file operations in
    `get_last_status` / `save_status` raise (the code catches and logs
    those exceptions);
  - `emailResult` is the outcome of the Mailjet call inside `send_email`
    (`false` models any exception there, which `send_email` turns into
    a `False` return value).

The persisted status file is an `Option String`: `none` when the file is
absent, `some c` when it holds the raw text `c`.
-/

/-- `PRODUCT_NAME` from `app.py`. -/
def PRODUCT_NAME : String := "Pallet Malta Guajira 330ml"

/-- One record of the products API response.  The code reads exactly two
fields: `item["name"]` and `item["hasStock"]`.  `name = none` models a record
whose `"name"` key is missing or whose value is not a string, in which case
`item["name"].lower()` raises and the whole scan aborts. -/
structure Item where
  name : Option String
  hasStock : Bool
deriving DecidableEq

/-- The environment-provided Mailjet credentials (`MAILJET_API_KEY`,
`MAILJET_SECRET_KEY`). -/
structure Config where
  mailjet_api_key : String
  mailjet_secret_key : String
deriving DecidableEq

/-- Oracles for the external effects of one request. -/
structure Env where
  catalogResponse : Option (List Item)
  readOk : Bool
  writeOk : Bool
  emailResult : Bool
deriving DecidableEq

/-- Python `str.lower()` on the ASCII product names involved: lower-case each
character. -/
def py_lower (s : String) : String :=
  String.mk (s.data.map Char.toLower)

/-- The characters Python `str.strip()` removes. -/
def py_space (c : Char) : Bool :=
  c == ' ' || c == '\t' || c == '\n' || c == '\x0d' || c == '\x0b' || c == '\x0c'

/-- Python `str.strip()`: drop whitespace from both ends. -/
def py_strip (s : String) : String :=
  String.mk (((s.data.dropWhile py_space).reverse.dropWhile py_space).reverse)

/-- `get_last_status`: read the status file, strip it, return `None` when
the file is absent or the read raises. -/
def get_last_status (file : Option String) (readOk : Bool) : Option String :=
  if readOk then file.map py_strip else none

/-- `save_status`: overwrite the status file; a failed write is logged and
swallowed, leaving the file as it was. -/
def save_status (status : String) (writeOk : Bool) (file : Option String) :
    Option String :=
  if writeOk then some status else file

/-- The comparison `PRODUCT_NAME.lower() == item["name"].lower()` of one
record against the target, `false` when the record has no usable name. -/
def matches_target (it : Item) : Bool :=
  match it.name with
  | some n => py_lower PRODUCT_NAME == py_lower n
  | none => false

/-- The `for item in items` scan inside `find_product`.  A record without a
usable name raises, and the surrounding `except` turns that into `None`. -/
def find_in_items : List Item → Option Item
  | [] => none
  | it :: rest =>
    match it.name with
    | none => none
    | some n =>
      if py_lower PRODUCT_NAME == py_lower n then some it else find_in_items rest

/-- `find_product`: `none` on network or parse failure, otherwise the scan
over the returned list. -/
def find_product (resp : Option (List Item)) : Option Item :=
  match resp with
  | none => none
  | some items => find_in_items items

/-- How Python renders a `bool` inside an f-string. -/
def pyBoolStr (b : Bool) : String :=
  if b then "True" else "False"

/-- `send_email`: builds and posts the Mailjet request.  The credentials only
enter the request's basic-auth field; they do not gate the attempt, and the
returned flag is the outcome of the call itself. -/
def send_email (_cfg : Config) (env : Env) : Bool :=
  env.emailResult

/-- A JSON response of `/check`: Flask returns HTTP 200 for the plain
`jsonify` (success) branch and an explicit 500 for the error branch. -/
inductive Resp where
  | ok (product_status : String) (message : String) (previous_status : Option String)
  | err (message : String)
deriving DecidableEq

/-- HTTP status code of a `/check` response. -/
def Resp.http_code : Resp → Nat
  | .ok _ _ _ => 200
  | .err _ => 500

/-- The `product_status` field of a `/check` response (absent on error). -/
def Resp.product_status : Resp → Option String
  | .ok s _ _ => some s
  | .err _ => none

/-- The `message` field of a `/check` response. -/
def Resp.message : Resp → String
  | .ok _ m _ => m
  | .err m => m

/-- Everything one `/check` invocation produces: the JSON response, the new
file state, how many times `send_email` was invoked, and the list of statuses
passed to `save_status`. -/
structure CheckOutcome where
  resp : Resp
  file : Option String
  notifierCalls : Nat
  writes : List String
deriving DecidableEq

/-- `check_product`, the `/check` handler. -/
def check_product (cfg : Config) (env : Env) (file : Option String) :
    CheckOutcome :=
  match find_product env.catalogResponse with
  | none =>
    { resp := Resp.err ("Product \x27" ++ PRODUCT_NAME ++ "\x27 not found in API response")
      file := file
      notifierCalls := 0
      writes := [] }
  | some product =>
    let last_status := get_last_status file env.readOk
    if product.hasStock = false then
      let current_status := "unavailable"
      { resp := Resp.ok current_status "Product still doesn\x27t have stock." last_status
        file := save_status current_status env.writeOk file
        notifierCalls := 0
        writes := [current_status] }
    else
      let current_status := "available"
      if last_status ≠ some "available" then
        let email_sent := send_email cfg env
        { resp := Resp.ok current_status
            ("Product is AVAILABLE now! | Email sent: " ++ pyBoolStr email_sent)
            last_status
          file := save_status current_status env.writeOk file
          notifierCalls := 1
          writes := [current_status] }
      else
        { resp := Resp.ok current_status "Product is AVAILABLE now!" last_status
          file := save_status current_status env.writeOk file
          notifierCalls := 0
          writes := [current_status] }

/-- The `last_status` field returned by `get_status`, the `/status` handler.
It reads the file and never writes. -/
def get_status (env : Env) (file : Option String) : Option String :=
  get_last_status file env.readOk

/-- The `email_configured` flag of the index endpoint:
`bool(MAILJET_API_KEY and MAILJET_SECRET_KEY)`. -/
def email_configured (cfg : Config) : Bool :=
  (cfg.mailjet_api_key != "") && (cfg.mailjet_secret_key != "")

/-- One inbound request, for reasoning about sequences of invocations. -/
inductive Request where
  | check (cfg : Config) (env : Env)
  | status (env : Env)

/-- Effect of one request on the persisted status file. -/
def step_request (file : Option String) : Request → Option String
  | Request.check cfg env => (check_product cfg env file).file
  | Request.status _ => file

/-- Effect of a sequence of requests on the persisted status file. -/
def run_requests (reqs : List Request) (file : Option String) : Option String :=
  reqs.foldl step_request file

/-- The status file is absent or holds one of the two status literals. -/
def valid_file (f : Option String) : Prop :=
  f = none ∨ f = some "available" ∨ f = some "unavailable"

instance (f : Option String) : Decidable (valid_file f) := by
  unfold valid_file
  exact inferInstance

/-- Claim C1: whenever the catalog returns the target product with
`hasStock = true` and the prior persisted status read from the store is not
`available` (including absent), `/check` invokes the notifier exactly once and
passes exactly the status `available` to the status store. -/
theorem check_transition_notifies_once
    (cfg : Config) (env : Env) (file : Option String) (p : Item)
    (hp : find_product env.catalogResponse = some p)
    (hs : p.hasStock = true)
    (hl : get_last_status file env.readOk ≠ some "available") :
    (check_product cfg env file).notifierCalls = 1 ∧
    (check_product cfg env file).writes = ["available"] := by
  simp [check_product, hp, hs, hl]

/-- Witness for C1 at a concrete transition input. -/
theorem check_transition_notifies_once_witness :
    (check_product ⟨"key", "secret"⟩
        ⟨some [⟨some "Pallet Malta Guajira 330ml", true⟩], true, true, true⟩
        (some "unavailable")).notifierCalls = 1 ∧
    (check_product ⟨"key", "secret"⟩
        ⟨some [⟨some "Pallet Malta Guajira 330ml", true⟩], true, true, true⟩
        (some "unavailable")).writes = ["available"] :=
  check_transition_notifies_once _ _ _ ⟨some "Pallet Malta Guajira 330ml", true⟩
    (by decide) (by decide) (by decide)

/-- Claim C2: whenever the catalog returns the target product with
`hasStock = false`, `/check` reports `product_status = unavailable` and never
invokes the notifier, whatever the prior persisted status. -/
theorem check_no_stock_unavailable
    (cfg : Config) (env : Env) (file : Option String) (p : Item)
    (hp : find_product env.catalogResponse = some p)
    (hs : p.hasStock = false) :
    (check_product cfg env file).resp.product_status = some "unavailable" ∧
    (check_product cfg env file).notifierCalls = 0 := by
  simp [check_product, hp, hs, Resp.product_status]

/-- Witness for C2 at a concrete no-stock input. -/
theorem check_no_stock_unavailable_witness :
    (check_product ⟨"key", "secret"⟩
        ⟨some [⟨some "Pallet Malta Guajira 330ml", false⟩], true, true, true⟩
        (some "available")).resp.product_status = some "unavailable" ∧
    (check_product ⟨"key", "secret"⟩
        ⟨some [⟨some "Pallet Malta Guajira 330ml", false⟩], true, true, true⟩
        (some "available")).notifierCalls = 0 :=
  check_no_stock_unavailable _ _ _ ⟨some "Pallet Malta Guajira 330ml", false⟩
    (by decide) (by decide)

/-- Claim C3: when the prior persisted status reads exactly `available` and
the catalog returns the target product with `hasStock = true`, the notifier is
not invoked. -/
theorem check_still_available_no_notifier
    (cfg : Config) (env : Env) (file : Option String) (p : Item)
    (hp : find_product env.catalogResponse = some p)
    (hs : p.hasStock = true)
    (hl : get_last_status file env.readOk = some "available") :
    (check_product cfg env file).notifierCalls = 0 := by
  simp [check_product, hp, hs, hl]

/-- Witness for C3 at a concrete still-available input. -/
theorem check_still_available_no_notifier_witness :
    (check_product ⟨"key", "secret"⟩
        ⟨some [⟨some "Pallet Malta Guajira 330ml", true⟩], true, true, true⟩
        (some "available")).notifierCalls = 0 :=
  check_still_available_no_notifier _ _ _ ⟨some "Pallet Malta Guajira 330ml", true⟩
    (by decide) (by decide) (by decide)

/-- Claim C4: when the catalog client returns absent (product not found,
network failure, or parse failure), `/check` returns the HTTP 500 error body,
does not invoke the notifier, and leaves the persisted status file unchanged. -/
theorem check_absent_product_error
    (cfg : Config) (env : Env) (file : Option String)
    (hp : find_product env.catalogResponse = none) :
    check_product cfg env file =
      { resp := Resp.err ("Product \x27" ++ PRODUCT_NAME ++ "\x27 not found in API response")
        file := file
        notifierCalls := 0
        writes := [] } ∧
    (check_product cfg env file).resp.http_code = 500 := by
  simp [check_product, hp, Resp.http_code]

/-- Witness for C4 at a concrete failed catalog call. -/
theorem check_absent_product_error_witness :
    check_product ⟨"key", "secret"⟩ ⟨none, true, true, true⟩ (some "available") =
      { resp := Resp.err ("Product \x27" ++ PRODUCT_NAME ++ "\x27 not found in API response")
        file := some "available"
        notifierCalls := 0
        writes := [] } ∧
    (check_product ⟨"key", "secret"⟩ ⟨none, true, true, true⟩
        (some "available")).resp.http_code = 500 :=
  check_absent_product_error _ _ _ (by decide)

theorem py_strip_available : py_strip "available" = "available" := by decide

theorem py_strip_unavailable : py_strip "unavailable" = "unavailable" := by decide

theorem check_product_found_status (cfg : Config) (env : Env)
    (file : Option String) (p : Item)
    (hp : find_product env.catalogResponse = some p) :
    (check_product cfg env file).resp.product_status =
      some (if p.hasStock then "available" else "unavailable") := by
  unfold check_product
  rw [hp]
  by_cases hst : p.hasStock = false
  · simp [hst, Resp.product_status]
  · simp only [Bool.not_eq_false] at hst
    by_cases hl : get_last_status file env.readOk = some "available" <;>
      simp [hst, hl, Resp.product_status]

theorem check_product_found_file (cfg : Config) (env : Env)
    (file : Option String) (p : Item)
    (hp : find_product env.catalogResponse = some p) :
    (check_product cfg env file).file =
      save_status (if p.hasStock then "available" else "unavailable")
        env.writeOk file := by
  unfold check_product
  rw [hp]
  by_cases hst : p.hasStock = false
  · simp [hst]
  · simp only [Bool.not_eq_false] at hst
    by_cases hl : get_last_status file env.readOk = some "available" <;>
      simp [hst, hl]

theorem check_product_found_code (cfg : Config) (env : Env)
    (file : Option String) (p : Item)
    (hp : find_product env.catalogResponse = some p) :
    (check_product cfg env file).resp.http_code = 200 := by
  unfold check_product
  rw [hp]
  by_cases hst : p.hasStock = false
  · simp [hst, Resp.http_code]
  · simp only [Bool.not_eq_false] at hst
    by_cases hl : get_last_status file env.readOk = some "available" <;>
      simp [hst, hl, Resp.http_code]

/-- Claim C5 counterexample: a `/check` that computed and persisted
`available` is followed by a `/status` whose file read raises; `/status` then
returns `null`, not the persisted value. -/
theorem status_after_check_counterexample :
    (check_product ⟨"key", "secret"⟩
        ⟨some [⟨some "Pallet Malta Guajira 330ml", true⟩], true, true, true⟩
        none).resp.product_status = some "available" ∧
    (check_product ⟨"key", "secret"⟩
        ⟨some [⟨some "Pallet Malta Guajira 330ml", true⟩], true, true, true⟩
        none).file = some "available" ∧
    get_status ⟨none, false, true, true⟩
      ((check_product ⟨"key", "secret"⟩
          ⟨some [⟨some "Pallet Malta Guajira 330ml", true⟩], true, true, true⟩
          none).file) = none := by
  decide

/-- Claim C5 (amended): after a successful `/check` whose status write
succeeded, a `/status` invocation whose file read succeeds, with no
intervening writes, returns exactly the `product_status` that `/check`
computed and persisted. -/
theorem status_after_check
    (cfg : Config) (env₁ env₂ : Env) (file : Option String) (s : String)
    (hs : (check_product cfg env₁ file).resp.product_status = some s)
    (hw : env₁.writeOk = true)
    (hr : env₂.readOk = true) :
    get_status env₂ ((check_product cfg env₁ file).file) = some s := by
  rcases hfp : find_product env₁.catalogResponse with _ | p
  · simp [check_product, hfp, Resp.product_status] at hs
  · rw [check_product_found_status cfg env₁ file p hfp] at hs
    have hs2 : (if p.hasStock then "available" else "unavailable") = s :=
      Option.some.inj hs
    subst hs2
    rw [check_product_found_file cfg env₁ file p hfp, hw]
    simp only [save_status, if_true]
    simp only [get_status, get_last_status, hr, if_true, Option.map_some]
    cases p.hasStock <;>
      simp [py_strip_available, py_strip_unavailable]

/-- Witness for amended C5 at a concrete check-then-status pair. -/
theorem status_after_check_witness :
    get_status ⟨none, true, true, true⟩
      ((check_product ⟨"key", "secret"⟩
          ⟨some [⟨some "Pallet Malta Guajira 330ml", true⟩], true, true, true⟩
          (some "unavailable")).file) = some "available" :=
  status_after_check ⟨"key", "secret"⟩
    ⟨some [⟨some "Pallet Malta Guajira 330ml", true⟩], true, true, true⟩
    ⟨none, true, true, true⟩ (some "unavailable") "available"
    (by decide) rfl rfl

/-- Claim C6: when the catalog returns the target product but the status
write fails, `/check` still returns HTTP 200 with the `product_status`
computed in that invocation, and the file is left unchanged. -/
theorem check_write_failure_still_success
    (cfg : Config) (env : Env) (file : Option String) (p : Item)
    (hp : find_product env.catalogResponse = some p)
    (hw : env.writeOk = false) :
    (check_product cfg env file).resp.product_status =
      some (if p.hasStock then "available" else "unavailable") ∧
    (check_product cfg env file).resp.http_code = 200 ∧
    (check_product cfg env file).file = file := by
  refine ⟨check_product_found_status cfg env file p hp,
    check_product_found_code cfg env file p hp, ?_⟩
  rw [check_product_found_file cfg env file p hp, hw]
  simp [save_status]

/-- Witness for C6 at a concrete failed-write input. -/
theorem check_write_failure_still_success_witness :
    (check_product ⟨"key", "secret"⟩
        ⟨some [⟨some "Pallet Malta Guajira 330ml", true⟩], true, false, true⟩
        (some "unavailable")).resp.product_status =
      some (if (⟨some "Pallet Malta Guajira 330ml", true⟩ : Item).hasStock
            then "available" else "unavailable") ∧
    (check_product ⟨"key", "secret"⟩
        ⟨some [⟨some "Pallet Malta Guajira 330ml", true⟩], true, false, true⟩
        (some "unavailable")).resp.http_code = 200 ∧
    (check_product ⟨"key", "secret"⟩
        ⟨some [⟨some "Pallet Malta Guajira 330ml", true⟩], true, false, true⟩
        (some "unavailable")).file = some "unavailable" :=
  check_write_failure_still_success _ _ _ ⟨some "Pallet Malta Guajira 330ml", true⟩
    (by decide) rfl

/-- Claim C7: over a response list whose records all carry a string name,
`find_product` returns the first record matching the target name
case-insensitively, and `none` exactly when no record matches. -/
theorem find_product_first_match
    (items : List Item)
    (hwf : ∀ it ∈ items, (it.name).isSome = true) :
    find_product (some items) = items.find? matches_target := by
  induction items with
  | nil => rfl
  | cons it rest ih =>
    rcases hn : it.name with _ | n
    · exact absurd (hwf it (by simp)) (by simp [hn])
    · have ih2 := ih (fun x hx => hwf x (List.mem_cons_of_mem _ hx))
      by_cases hm : (py_lower PRODUCT_NAME == py_lower n) = true
      · simp [find_product, find_in_items, hn, hm, List.find?_cons,
          matches_target]
      · simp only [find_product, find_in_items] at ih2 ⊢
        rw [hn]
        simp only [Bool.not_eq_true] at hm
        rw [List.find?_cons]
        have hmt : matches_target it = false := by
          simp [matches_target, hn, hm]
        rw [hmt]
        simp [hm, ih2]

/-- Witness for C7 at a concrete well-formed response list. -/
theorem find_product_first_match_witness :
    find_product (some [⟨some "Other beer", false⟩,
        ⟨some "pallet malta guajira 330ml", true⟩,
        ⟨some "Pallet Malta Guajira 330ml", false⟩]) =
      List.find? matches_target [⟨some "Other beer", false⟩,
        ⟨some "pallet malta guajira 330ml", true⟩,
        ⟨some "Pallet Malta Guajira 330ml", false⟩] :=
  find_product_first_match _ (by decide)

/-- Claim C9: a record without a usable name aborts the scan: if every record
before it fails to match, `find_product` returns `none` even though a later
record matches the target, so a valid match is masked. -/
theorem find_product_nameless_masks_match
    (pre post : List Item) (bad : Item)
    (hbad : bad.name = none)
    (hpre : ∀ it ∈ pre, matches_target it = false)
    (hpost : ∃ it ∈ post, matches_target it = true) :
    find_product (some (pre ++ bad :: post)) = none ∧
    (pre ++ bad :: post).any matches_target = true := by
  constructor
  · have habort : ∀ l : List Item, (∀ it ∈ l, matches_target it = false) →
        find_in_items (l ++ bad :: post) = none := by
      intro l
      induction l with
      | nil => intro _; simp [find_in_items, hbad]
      | cons it rest ih =>
        intro h
        rcases hn : it.name with _ | n
        · simp [find_in_items, hn]
        · have hm : (py_lower PRODUCT_NAME == py_lower n) = false := by
            have := h it (by simp)
            simpa [matches_target, hn] using this
          simp only [List.cons_append, find_in_items, hn, hm]
          simp only [Bool.false_eq_true, if_false]
          exact ih (fun x hx => h x (List.mem_cons_of_mem _ hx))
    exact habort pre hpre
  · rcases hpost with ⟨it, hmem, hm⟩
    rw [List.any_eq_true]
    exact ⟨it, by simp [hmem], hm⟩

/-- Witness for C9: a nameless record hides a later exact match. -/
theorem find_product_nameless_masks_match_witness :
    find_product (some (([⟨some "Other beer", false⟩] : List Item) ++
        (⟨none, true⟩ : Item) ::
        [⟨some "Pallet Malta Guajira 330ml", true⟩])) = none ∧
    (([⟨some "Other beer", false⟩] : List Item) ++ (⟨none, true⟩ : Item) ::
        [⟨some "Pallet Malta Guajira 330ml", true⟩]).any matches_target = true :=
  find_product_nameless_masks_match
    ([⟨some "Other beer", false⟩] : List Item)
    ([⟨some "Pallet Malta Guajira 330ml", true⟩] : List Item)
    (⟨none, true⟩ : Item) rfl (by decide) (by decide)

/-- Claim C10: with empty Mailjet credentials the index endpoint reports
`email_configured = false`, yet the unavailable-to-available transition still
invokes the notifier once, and a failed attempt is reported in the message. -/
theorem check_notifies_even_unconfigured
    (cfg : Config) (env : Env) (file : Option String) (p : Item)
    (hk : cfg.mailjet_api_key = "")
    (hk2 : cfg.mailjet_secret_key = "")
    (hp : find_product env.catalogResponse = some p)
    (hs : p.hasStock = true)
    (hl : get_last_status file env.readOk ≠ some "available")
    (he : env.emailResult = false) :
    email_configured cfg = false ∧
    (check_product cfg env file).notifierCalls = 1 ∧
    (check_product cfg env file).resp.message =
      "Product is AVAILABLE now! | Email sent: False" := by
  refine ⟨?_, ?_, ?_⟩
  · simp [email_configured, hk, hk2]
  · simp [check_product, hp, hs, hl]
  · simp [check_product, hp, hs, hl, send_email, he, pyBoolStr, Resp.message]

/-- Witness for C10 at a concrete unconfigured transition. -/
theorem check_notifies_even_unconfigured_witness :
    email_configured ⟨"", ""⟩ = false ∧
    (check_product ⟨"", ""⟩
        ⟨some [⟨some "Pallet Malta Guajira 330ml", true⟩], true, true, false⟩
        none).notifierCalls = 1 ∧
    (check_product ⟨"", ""⟩
        ⟨some [⟨some "Pallet Malta Guajira 330ml", true⟩], true, true, false⟩
        none).resp.message =
      "Product is AVAILABLE now! | Email sent: False" :=
  check_notifies_even_unconfigured _ _ _ ⟨some "Pallet Malta Guajira 330ml", true⟩
    rfl rfl (by decide) rfl (by decide) rfl

theorem check_product_file_cases (cfg : Config) (env : Env) (file : Option String) :
    (check_product cfg env file).file = file ∨
    (check_product cfg env file).file = some "available" ∨
    (check_product cfg env file).file = some "unavailable" := by
  unfold check_product
  rcases find_product env.catalogResponse with _ | p
  · left; rfl
  · by_cases hst : p.hasStock = false
    · cases hwk : env.writeOk <;> simp [hst, save_status, hwk]
    · simp only [Bool.not_eq_false] at hst
      by_cases hl : get_last_status file env.readOk = some "available" <;>
        cases hwk : env.writeOk <;> simp [hst, hl, save_status, hwk]

theorem check_product_writes_values (cfg : Config) (env : Env)
    (file : Option String) (s : String)
    (h : s ∈ (check_product cfg env file).writes) :
    s = "available" ∨ s = "unavailable" := by
  rcases hfp : find_product env.catalogResponse with _ | p
  · simp [check_product, hfp] at h
  · by_cases hst : p.hasStock = false
    · simp [check_product, hfp, hst] at h
      right; exact h
    · simp only [Bool.not_eq_false] at hst
      by_cases hl : get_last_status file env.readOk = some "available" <;>
        simp [check_product, hfp, hst, hl] at h <;> left <;> exact h

/-- Claim C8 counterexample: starting from an absent file, a sequence
consisting of one `/status` invocation leaves the file absent, so the file
does not hold either of the two status literals. -/
theorem status_store_two_values_counterexample :
    ¬ (run_requests [Request.status ⟨none, true, true, true⟩] none = some "available" ∨
       run_requests [Request.status ⟨none, true, true, true⟩] none = some "unavailable") := by
  decide

/-- Claim C8 (amended): every status the system passes to `save_status` is one
of the literals `available` or `unavailable`, and starting from an absent or
valid file, any sequence of `/check` and `/status` invocations leaves the file
absent or holding one of those two literals. -/
theorem status_store_invariant
    (reqs : List Request) (f : Option String) (cfg : Config) (env : Env)
    (file : Option String) (s : String)
    (hf : valid_file f)
    (hw : s ∈ (check_product cfg env file).writes) :
    (s = "available" ∨ s = "unavailable") ∧
    valid_file (run_requests reqs f) := by
  refine ⟨check_product_writes_values cfg env file s hw, ?_⟩
  induction reqs generalizing f with
  | nil => simpa [run_requests] using hf
  | cons r rest ih =>
    have hstep : valid_file (step_request f r) := by
      rcases r with ⟨cfg2, env2⟩ | env2
      · rcases check_product_file_cases cfg2 env2 f with h | h | h
        · rw [step_request, h]; exact hf
        · rw [step_request, h]; right; left; rfl
        · rw [step_request, h]; right; right; rfl
      · exact hf
    have hrun : run_requests (r :: rest) f = run_requests rest (step_request f r) := by
      simp [run_requests, List.foldl]
    rw [hrun]
    exact ih _ hstep

/-- Witness for amended C8 at a concrete write and request sequence. -/
theorem status_store_invariant_witness :
    ("unavailable" = "available" ∨ ("unavailable" : String) = "unavailable") ∧
    valid_file (run_requests
      [Request.check ⟨"key", "secret"⟩
          ⟨some [⟨some "Pallet Malta Guajira 330ml", false⟩], true, true, true⟩]
      none) :=
  status_store_invariant _ _ ⟨"key", "secret"⟩
    ⟨some [⟨some "Pallet Malta Guajira 330ml", false⟩], true, true, true⟩
    none _ (by decide) (by decide)
